import Mathlib

/-!
Verification of the ticket-processing pipeline of the zendesk-ai-automation
repository, as a shallow embedding in Lean.

External collaborators (completion provider, vector index, ticketing system)
are modelled as environments supplying the outcome of each call: an
`Except String α` whose error carries the thrown error's message.  JavaScript
numbers on the score path are modelled as rationals; on the confidence path
as rationals extended with NaN, since JS numeric coercion of a non-numeric
JSON confidence value can produce NaN; JS string
operations are modelled over the characters of Lean strings.  The host
regex-and-JSON.parse step (`response.match` followed by `JSON.parse`) is
modelled by a `JsonOutcome` value supplied alongside the raw response text:
either no parseable object was found, or a record of the optional fields the
source reads off the parsed object.
-/

namespace ZendeskAI

/-! ## Data model (src/types/index.ts) -/

/-- The fixed category set `TICKET_CATEGORIES` (src/types/index.ts lines 55–67). -/
def TICKET_CATEGORIES : List String :=
  ["billing", "technical_support", "account_management", "feature_request",
   "bug_report", "general_inquiry", "cancellation", "refund", "onboarding",
   "integration", "security"]

/-- The closed urgency set checked in `extractIntent` (orchestrator.ts line 242). -/
def URGENCY_LEVELS : List String := ["low", "medium", "high", "critical"]

/-- The closed sentiment set checked in `extractIntent` (orchestrator.ts line 244). -/
def SENTIMENTS : List String := ["positive", "neutral", "negative", "frustrated"]

/-- `IntentAnalysis` (src/types/index.ts).  Urgency and sentiment are kept as
strings, as in the source; the closed-set invariants are proved, not assumed. -/
structure IntentAnalysis where
  intent : String
  urgency : String
  sentiment : String
  keyEntities : List String
deriving Repr, DecidableEq

/-- A JavaScript number on the confidence path: a rational value or NaN.
JSON itself has no NaN literal, but the JS numeric coercion applied by
`Math.max`/`Math.min` to a non-numeric value can produce NaN. -/
inductive JSNumber where
  | val (q : ℚ)
  | nan
deriving Repr, DecidableEq

/-- `DraftResponse` (src/types/index.ts).  `confidence` is the JS number the
orchestrator computes; it is NaN when the provider reported a truthy
non-numeric confidence value. -/
structure DraftResponse where
  draft : String
  confidence : JSNumber
  suggestedTags : List String
  requiresHumanReview : Bool
  reasoning : String
deriving Repr, DecidableEq

/-- `KnowledgeResult` (src/types/index.ts).  Optional `title`/`url` are `Option`. -/
structure KnowledgeResult where
  id : String
  text : String
  title : Option String
  score : ℚ
  url : Option String
deriving Repr, DecidableEq

/-- `ProcessingResult` (src/types/index.ts).  `processingTimeMs` is wall-clock
time and is not modelled. -/
structure ProcessingResult where
  ticketId : Nat
  category : String
  intent : IntentAnalysis
  relevantKnowledge : List KnowledgeResult
  draftResponse : Option DraftResponse
  error : Option String
deriving Repr, DecidableEq

/-- Outcome of `response.match(/\x7b[\s\S]*\x7d/)` followed by `JSON.parse`:
either no JSON object could be extracted from the raw text (no match, or
`JSON.parse` threw), or the fields the source subsequently reads.  A field is
`none` when absent from (or null in) the parsed object. -/
inductive JsonOutcome (α : Type) where
  | noJson
  | parsed (value : α)
deriving Repr, DecidableEq

/-- The fields `extractIntent` reads off the parsed object (orchestrator.ts
lines 240–246). -/
structure IntentFields where
  intent : Option String
  urgency : Option String
  sentiment : Option String
  keyEntities : Option (List String)
deriving Repr, DecidableEq

/-- The JSON value held by a parsed object's `confidence` field.  The source
reads it untyped; the code path consumes exactly two of its attributes: its
JS truthiness (for `||`) and its `ToNumber` coercion (applied by
`Math.max`).  A JSON number is truthy iff nonzero and coerces to itself;
every other JSON value (string, boolean, array, object) is recorded with its
truthiness and its coercion — NaN for values such as the string `"high"` or
an object, a number for values such as the string `"0.8"` or `true`. -/
inductive ConfJson where
  | num (q : ℚ)
  | other (truthy : Bool) (toNumber : JSNumber)
deriving Repr, DecidableEq

/-- The fields `generateDraft` reads off the parsed object (orchestrator.ts
lines 300–306).  `confidence` is `none` when absent or null, otherwise the
JSON value found. -/
structure DraftFields where
  draft : Option String
  confidence : Option ConfJson
  suggestedTags : Option (List String)
  requiresHumanReview : Option Bool
  reasoning : Option String
deriving Repr, DecidableEq

/-! ## String helpers modelling JavaScript string primitives

`String.includes` is substring containment; `toLowerCase` is modelled with
ASCII case folding (`Char.toLower`), which agrees with JS on the ASCII range
relevant to the pipeline.  All helpers work on the character list of a
string so that they compute by kernel reduction. -/

/-- Does the string starting at this character-list begin with the pattern? -/
def charsStartWith : List Char → List Char → Bool
  | _, [] => true
  | [], _ :: _ => false
  | c :: s, p :: ps => (c == p) && charsStartWith s ps

/-- Substring containment on character lists (JS `String.prototype.includes`);
the empty pattern is contained in every string, as in JS. -/
def charsContain (s pat : List Char) : Bool :=
  match s with
  | [] => pat.isEmpty
  | c :: rest => charsStartWith (c :: rest) pat || charsContain rest pat

/-- `s.includes(pat)`. -/
def strIncludes (s pat : String) : Bool := charsContain s.data pat.data

/-- `s.toLowerCase()` (ASCII case folding). -/
def lowerStr (s : String) : String := String.mk (s.data.map Char.toLower)

/-- `s.trim()`: remove leading and trailing whitespace. -/
def trimChars (s : List Char) : List Char :=
  ((s.dropWhile Char.isWhitespace).reverse.dropWhile Char.isWhitespace).reverse

/-! ## LLM orchestrator response processing (src/llm/orchestrator.ts)

The pure tail of each orchestrator method: what it does with the provider's
raw response once `complete` has returned. -/

/-- `response.trim().toLowerCase().replace(/[^a-z_]/g, '')`
(orchestrator.ts line 195).  Every character other than an ASCII lowercase
letter or underscore is removed (case folding happens first, so uppercase
letters survive as lowercase). -/
def normalizeCategory (response : String) : String :=
  String.mk (((trimChars response.data).map Char.toLower).filter
    (fun c => decide (('a' ≤ c ∧ c ≤ 'z') ∨ c = '_')))

/-- `categorize`, lines 195–203: normalize the raw response; return it when it
is a member of `TICKET_CATEGORIES`, else fall back to `general_inquiry`. -/
def categorizeCore (response : String) : String :=
  let category := normalizeCategory response
  if category ∈ TICKET_CATEGORIES then category else "general_inquiry"

/-- The default `IntentAnalysis` (orchestrator.ts line 250, processor.ts line 66). -/
def defaultIntent : IntentAnalysis :=
  { intent := "unknown", urgency := "medium", sentiment := "neutral", keyEntities := [] }

/-- `extractIntent`, lines 232–251: on a parsed object, each field is
individually validated (`parsed.intent || 'unknown'` treats the empty string
as falsy; urgency/sentiment are checked for membership in their closed sets;
`keyEntities` must be an array); on parse failure the whole default is
returned. -/
def intentCore (parse : JsonOutcome IntentFields) : IntentAnalysis :=
  match parse with
  | .noJson => defaultIntent
  | .parsed p =>
    { intent := match p.intent with
        | some s => if s = "" then "unknown" else s
        | none => "unknown"
      urgency := match p.urgency with
        | some u => if u ∈ URGENCY_LEVELS then u else "medium"
        | none => "medium"
      sentiment := match p.sentiment with
        | some s => if s ∈ SENTIMENTS then s else "neutral"
        | none => "neutral"
      keyEntities := p.keyEntities.getD [] }

/-- `parsed.confidence || 0.7` (orchestrator.ts line 302), as a JS number
ready for the surrounding `Math.max`: a falsy field (absent, null, the
number 0, `false`, the empty string) is replaced by `0.7`; a truthy field
contributes its `ToNumber` coercion. -/
def confOrDefault : Option ConfJson → JSNumber
  | none => .val (7/10)
  | some (.num q) => if q = 0 then .val (7/10) else .val q
  | some (.other t n) => if t then n else .val (7/10)

/-- `Math.max(0, x)`: NaN propagates. -/
def jsMax0 : JSNumber → JSNumber
  | .val q => .val (max 0 q)
  | .nan => .nan

/-- `Math.min(1, x)`: NaN propagates. -/
def jsMin1 : JSNumber → JSNumber
  | .val q => .val (min 1 q)
  | .nan => .nan

/-- JS `x >= y`, as the draft-commit gate uses it (processor.ts line 128):
false when the compared confidence is NaN. -/
def jsGe (x : JSNumber) (y : ℚ) : Prop :=
  match x with
  | .val q => y ≤ q
  | .nan => False

instance (x : JSNumber) (y : ℚ) : Decidable (jsGe x y) :=
  match x with
  | .val q => inferInstanceAs (Decidable (y ≤ q))
  | .nan => isFalse (fun h => h)

/-- `generateDraft`, lines 294–317: on a parsed object,
`draft := parsed.draft || response` (empty string is falsy),
`confidence := Math.min(1, Math.max(0, parsed.confidence || 0.7))` (absent,
null or `0` confidence is falsy and becomes `0.7` before clamping; a truthy
non-numeric confidence is coerced by `Math.max`, possibly to NaN, which
`Math.min` propagates), `requiresHumanReview := parsed.requiresHumanReview
?? true`; on parse failure the entire raw response becomes the draft with
confidence `0.5`. -/
def draftCore (response : String) (parse : JsonOutcome DraftFields) : DraftResponse :=
  match parse with
  | .noJson =>
    { draft := response, confidence := .val (1/2), suggestedTags := [],
      requiresHumanReview := true,
      reasoning := "Auto-generated from raw LLM response" }
  | .parsed p =>
    { draft := match p.draft with
        | some d => if d = "" then response else d
        | none => response
      confidence := jsMin1 (jsMax0 (confOrDefault p.confidence))
      suggestedTags := p.suggestedTags.getD []
      requiresHumanReview := p.requiresHumanReview.getD true
      reasoning := p.reasoning.getD "" }

/-! ## RAG service (src/rag/service.ts)

The Pinecone index and the embedding call are external collaborators: the
environment supplies the outcome of each.  The embedding vector itself never
influences control flow in the source (it is only forwarded to the index), so
a successful embedding is modelled as `Unit` and the index response is the
environment's answer for the requested `topK`. -/

/-- One Pinecone match: optional score and the metadata fields the source
reads.  `metaText`/`metaTitle`/`metaUrl` are `none` when the metadata is
absent. -/
structure PineconeMatch where
  id : String
  score : Option ℚ
  metaText : Option String
  metaTitle : Option String
  metaUrl : Option String
deriving Repr, DecidableEq

/-- Environment for the RAG service: outcome of `this.embed(query)` and of
`index.namespace(..).query({vector, topK, ..})`. -/
structure RagEnv where
  embed : String → Except String Unit
  queryIndex : Nat → Except String (List PineconeMatch)

namespace RAGService

/-- `retrieve` (service lines 129–175): embed the query, query the index with
`topK`, keep matches whose score is present, nonzero (JS truthiness of
`match.score &&`) and `≥ minScore`, map them to `KnowledgeResult` with
defaulted metadata, drop results with empty text, and degrade to `[]` when
the embedding or the index call throws.  Source defaults are `topK = 5`,
`minScore = 0.7`. -/
def retrieve (env : RagEnv) (query : String) (topK : Nat) (minScore : ℚ) :
    List KnowledgeResult :=
  match env.embed query with
  | .error _ => []
  | .ok _ =>
    match env.queryIndex topK with
    | .error _ => []
    | .ok results =>
      ((results.filter (fun m =>
          match m.score with
          | none => false
          | some s => decide (s ≠ 0) && decide (minScore ≤ s))).map
        (fun m =>
          { id := m.id
            text := m.metaText.getD ""
            title := m.metaTitle
            score := m.score.getD 0
            url := m.metaUrl })).filter
        (fun r => decide (r.text ≠ ""))

end RAGService

/-- The keywords (among `keywords`) occurring case-insensitively in the
result's text or title (hybridSearch lines 357–360; an absent title
contributes nothing, as with JS optional chaining). -/
def keywordMatches (keywords : List String) (r : KnowledgeResult) : List String :=
  keywords.filter (fun kw =>
    strIncludes (lowerStr r.text) (lowerStr kw) ||
      (match r.title with
       | some t => strIncludes (lowerStr t) (lowerStr kw)
       | none => false))

/-- Score boosting (hybridSearch lines 362–365): add `0.1` per matched keyword. -/
def boostResult (keywords : List String) (r : KnowledgeResult) : KnowledgeResult :=
  { r with score := r.score + (keywordMatches keywords r).length * (1/10 : ℚ) }

/-- Descending comparison on scores: `a` may come no later than `b`. -/
def scoreGE (a b : KnowledgeResult) : Prop := b.score ≤ a.score

instance : DecidableRel scoreGE :=
  fun a b => inferInstanceAs (Decidable (b.score ≤ a.score))

instance : IsTotal KnowledgeResult scoreGE := ⟨fun a b => le_total b.score a.score⟩

instance : IsTrans KnowledgeResult scoreGE :=
  ⟨fun _ _ _ hab hbc => le_trans hbc hab⟩

/-- `boosted.sort((a, b) => b.score - a.score)` (hybridSearch line 370).
`Array.prototype.sort` is stable, and with this comparator it produces the
descending-by-score reordering that keeps equal-score elements in input
order; stable insertion sort with `scoreGE` computes exactly that list. -/
def sortByScoreDesc (l : List KnowledgeResult) : List KnowledgeResult :=
  List.insertionSort scoreGE l

namespace RAGService

/-- `hybridSearch` (service lines 347–372): semantic retrieval with
`topK = 10`, `minScore = 0.5`; with no keywords (absent or empty) the first 5
semantic results; otherwise boost, re-sort descending, take 5. -/
def hybridSearch (env : RagEnv) (query : String) (keywords : Option (List String)) :
    List KnowledgeResult :=
  let semanticResults := retrieve env query 10 (1/2)
  match keywords with
  | none => semanticResults.take 5
  | some kws =>
    if kws.isEmpty then semanticResults.take 5
    else
      let boosted := semanticResults.map (boostResult kws)
      (sortByScoreDesc boosted).take 5

end RAGService

/-! ### Stability of the sort

Inserting an element puts it before every equal-score element already
present, so for each score value the sorted list's elements with that score
appear in input order. -/

theorem filter_orderedInsert_score (x : KnowledgeResult) (l : List KnowledgeResult) (q : ℚ) :
    (List.orderedInsert scoreGE x l).filter (fun r => decide (r.score = q)) =
      (if x.score = q then [x] else []) ++ l.filter (fun r => decide (r.score = q)) := by
  induction l with
  | nil =>
    by_cases hq : x.score = q <;>
      simp [List.orderedInsert, List.filter_cons, hq]
  | cons y ys ih =>
    by_cases hxy : scoreGE x y
    · by_cases hq : x.score = q <;>
        simp [List.orderedInsert, hxy, List.filter_cons, hq]
    · have hlt : x.score < y.score := lt_of_not_le hxy
      by_cases hyq : y.score = q
      · have hxq : x.score ≠ q := by
          intro hxq
          exact absurd (hxq.trans hyq.symm) (ne_of_lt hlt)
        simp [List.orderedInsert, hxy, List.filter_cons, hyq, hxq, ih]
      · by_cases hxq : x.score = q <;>
          simp [List.orderedInsert, hxy, List.filter_cons, hyq, hxq, ih]

theorem filter_sortByScoreDesc (l : List KnowledgeResult) (q : ℚ) :
    (sortByScoreDesc l).filter (fun r => decide (r.score = q)) =
      l.filter (fun r => decide (r.score = q)) := by
  induction l with
  | nil => rfl
  | cons x xs ih =>
    show (List.orderedInsert scoreGE x (sortByScoreDesc xs)).filter _ = _
    by_cases hq : x.score = q <;>
      simp [filter_orderedInsert_score, ih, List.filter_cons, hq]

/-! ### Concrete instance for the hybrid-search specification -/

/-- Index response for the worked example: semantic scores 0.9, 0.8, 0.75,
with two of the keywords occurring in the second result's text and one in
the third result's text. -/
def exMatches : List PineconeMatch :=
  [{ id := "a", score := some (9/10), metaText := some "alpha notes",
     metaTitle := none, metaUrl := none },
   { id := "b", score := some (4/5), metaText := some "beta kw1 kw2 info",
     metaTitle := none, metaUrl := none },
   { id := "c", score := some (3/4), metaText := some "gamma kw1 data",
     metaTitle := none, metaUrl := none }]

/-- Environment in which embedding succeeds and the index answers with
`exMatches`. -/
def exEnv : RagEnv := { embed := fun _ => .ok (), queryIndex := fun _ => .ok exMatches }

/-- C1: for every semantic-result list (retrieval with `topK = 10`,
`minScore = 0.5`) and non-empty keyword list, `hybridSearch` returns the
first 5 of the list obtained by adding `0.1` per case-insensitive keyword
occurrence in text or title to each score and re-sorting descending with
ties in original relative order; with an absent or empty keyword list it
returns the first 5 semantic results unmodified; and on semantic scores
[0.9, 0.8, 0.75] with two keywords matching the 2nd result and one the 3rd,
the output order is 2nd (score 1.0), 1st (0.9), 3rd (0.85). -/
theorem hybridSearch_boost_rank (env : RagEnv) (q : String) (kws : List String)
    (hkws : kws ≠ []) :
    RAGService.hybridSearch env q none = (RAGService.retrieve env q 10 (1/2)).take 5 ∧
    RAGService.hybridSearch env q (some []) = (RAGService.retrieve env q 10 (1/2)).take 5 ∧
    (∃ L : List KnowledgeResult,
      L.Perm ((RAGService.retrieve env q 10 (1/2)).map (boostResult kws)) ∧
      List.Pairwise scoreGE L ∧
      (∀ s : ℚ, L.filter (fun r => decide (r.score = s)) =
        ((RAGService.retrieve env q 10 (1/2)).map (boostResult kws)).filter
          (fun r => decide (r.score = s))) ∧
      RAGService.hybridSearch env q (some kws) = L.take 5) ∧
    RAGService.hybridSearch exEnv "query" (some ["kw1", "kw2"]) =
      [{ id := "b", text := "beta kw1 kw2 info", title := none, score := 1, url := none },
       { id := "a", text := "alpha notes", title := none, score := 9/10, url := none },
       { id := "c", text := "gamma kw1 data", title := none, score := 17/20, url := none }] := by
  refine ⟨rfl, rfl,
    ⟨sortByScoreDesc ((RAGService.retrieve env q 10 (1/2)).map (boostResult kws)),
      List.perm_insertionSort scoreGE _,
      List.sorted_insertionSort scoreGE _,
      fun s => filter_sortByScoreDesc _ s, ?_⟩, ?_⟩
  · cases kws with
    | nil => exact absurd rfl hkws
    | cons a as => rfl
  · have hret : RAGService.retrieve exEnv "query" 10 (1/2) =
        [{ id := "a", text := "alpha notes", title := none, score := 9/10, url := none },
         { id := "b", text := "beta kw1 kw2 info", title := none, score := 4/5, url := none },
         { id := "c", text := "gamma kw1 data", title := none, score := 3/4, url := none }] := by
      norm_num [RAGService.retrieve, exEnv, exMatches, List.filter_cons]
      simp
    have hm1 : keywordMatches ["kw1", "kw2"]
        { id := "a", text := "alpha notes", title := none, score := 9/10, url := none } = [] := rfl
    have hm2 : keywordMatches ["kw1", "kw2"]
        { id := "b", text := "beta kw1 kw2 info", title := none, score := 4/5, url := none } =
        ["kw1", "kw2"] := rfl
    have hm3 : keywordMatches ["kw1", "kw2"]
        { id := "c", text := "gamma kw1 data", title := none, score := 3/4, url := none } =
        ["kw1"] := rfl
    norm_num [RAGService.hybridSearch, hret, boostResult, hm1, hm2, hm3,
      sortByScoreDesc, List.insertionSort, List.orderedInsert, scoreGE]

/-- Witness for `hybridSearch_boost_rank` at the worked example. -/
theorem hybridSearch_boost_rank_witness :
    RAGService.hybridSearch exEnv "query" (some ["kw1", "kw2"]) =
      [{ id := "b", text := "beta kw1 kw2 info", title := none, score := 1, url := none },
       { id := "a", text := "alpha notes", title := none, score := 9/10, url := none },
       { id := "c", text := "gamma kw1 data", title := none, score := 17/20, url := none }] :=
  (hybridSearch_boost_rank exEnv "query" ["kw1", "kw2"] (by decide)).2.2.2

/-! ## Claims about the orchestrator's defensive response handling -/

/-- C4: for every raw classifier response, `categorize` returns a member of
the fixed category set, and whenever the normalized response (case-folded,
non-`[a-z_]` characters stripped) is not in the set it returns
`general_inquiry`; in particular the response `"not-a-category"` yields
`general_inquiry`. -/
theorem categorize_closed_set (r : String) :
    categorizeCore r ∈ TICKET_CATEGORIES ∧
    (normalizeCategory r ∉ TICKET_CATEGORIES → categorizeCore r = "general_inquiry") ∧
    categorizeCore "not-a-category" = "general_inquiry" := by
  refine ⟨?_, fun h => ?_, by decide⟩
  · simp only [categorizeCore]
    split
    · assumption
    · decide
  · simp only [categorizeCore]
    exact if_neg h

/-- Witness for `categorize_closed_set` at the response `"not-a-category"`. -/
theorem categorize_closed_set_witness :
    categorizeCore "not-a-category" ∈ TICKET_CATEGORIES ∧
    categorizeCore "not-a-category" = "general_inquiry" :=
  ⟨(categorize_closed_set "not-a-category").1,
   (categorize_closed_set "not-a-category").2.1 (by decide)⟩

/-- The clamp `Math.min(1, Math.max(0, ·))` puts every numeric outcome into
[0, 1]. -/
theorem clamp_val_bounds (x : JSNumber) (q : ℚ) (h : jsMin1 (jsMax0 x) = .val q) :
    0 ≤ q ∧ q ≤ 1 := by
  cases x with
  | nan => exact absurd h (by simp [jsMax0, jsMin1])
  | val c =>
    simp only [jsMax0, jsMin1, JSNumber.val.injEq] at h
    subst h
    exact ⟨le_min (by norm_num) (le_max_left _ _), min_le_left _ _⟩

/-- Parsed draft object whose confidence field holds a truthy non-numeric
JSON value with NaN coercion: the parse outcome of a raw response whose
extracted object is `"draft": "x", "confidence": "high"` (the string
`"high"` is truthy and its `ToNumber` coercion is NaN). -/
def dpNaN : DraftFields :=
  { draft := some "x", confidence := some (.other true .nan), suggestedTags := none,
    requiresHumanReview := none, reasoning := none }

/-- C5 counterexample: for a raw provider response whose extracted JSON
object reports the non-numeric confidence `"high"`, the truthy string
survives `parsed.confidence || 0.7` and `Math.max(0, ·)` coerces it to NaN,
which `Math.min(1, ·)` propagates — the returned confidence is NaN, not a
value in [0, 1], refuting the claim's for-every-response invariant. -/
theorem generateDraft_confidence_nan_counterexample :
    (draftCore "raw" (.parsed dpNaN)).confidence = .nan ∧
    ¬∃ q : ℚ, (draftCore "raw" (.parsed dpNaN)).confidence = .val q ∧
      0 ≤ q ∧ q ≤ 1 := by
  refine ⟨rfl, ?_⟩
  rintro ⟨q, hq, -⟩
  exact JSNumber.noConfusion hq

/-- C5 (amended): whenever the confidence `generateDraft` returns is a
number it lies in [0, 1], and an absent, null or numeric reported confidence
always yields a number — 1.4 is clamped to 1 and -0.2 to 0; a present truthy
non-numeric confidence whose coercion is NaN (such as the string `"high"`)
is returned as NaN, outside [0, 1]; and when no JSON object can be parsed
the result is the entire raw response as the draft with confidence 0.5 and
`requiresHumanReview = true`. -/
theorem generateDraft_confidence_clamped (response : String) (parse : JsonOutcome DraftFields) :
    (∀ q : ℚ, (draftCore response parse).confidence = .val q → 0 ≤ q ∧ q ≤ 1) ∧
    (∀ p : DraftFields, parse = .parsed p →
      (p.confidence = none ∨ ∃ c : ℚ, p.confidence = some (.num c)) →
      ∃ q : ℚ, (draftCore response parse).confidence = .val q) ∧
    draftCore response .noJson =
      { draft := response, confidence := .val (1/2), suggestedTags := [],
        requiresHumanReview := true, reasoning := "Auto-generated from raw LLM response" } ∧
    (∀ p : DraftFields, p.confidence = some (.num (7/5)) →
      (draftCore response (.parsed p)).confidence = .val 1) ∧
    (∀ p : DraftFields, p.confidence = some (.num (-(1/5))) →
      (draftCore response (.parsed p)).confidence = .val 0) ∧
    (∀ p : DraftFields, p.confidence = some (.other true .nan) →
      (draftCore response (.parsed p)).confidence = .nan) := by
  refine ⟨?_, ?_, rfl, fun p hp => ?_, fun p hp => ?_, fun p hp => ?_⟩
  · intro q hq
    cases parse with
    | noJson =>
      have h12 : (1/2 : ℚ) = q := by
        injection hq
      rw [← h12]
      norm_num
    | parsed p => exact clamp_val_bounds (confOrDefault p.confidence) q hq
  · rintro p rfl hnum
    rcases hnum with hnone | ⟨c, hc⟩
    · exact ⟨min 1 (max 0 (7/10)),
        by simp [draftCore, hnone, confOrDefault, jsMax0, jsMin1]⟩
    · by_cases h0 : c = 0
      · exact ⟨min 1 (max 0 (7/10)),
          by simp [draftCore, hc, confOrDefault, jsMax0, jsMin1, h0]⟩
      · exact ⟨min 1 (max 0 c),
          by simp [draftCore, hc, confOrDefault, jsMax0, jsMin1, h0]⟩
  · norm_num [draftCore, hp, confOrDefault, jsMax0, jsMin1]
  · norm_num [draftCore, hp, confOrDefault, jsMax0, jsMin1]
  · simp [draftCore, hp, confOrDefault, jsMax0, jsMin1]

/-- Parsed draft object reporting the numeric confidence 1.4. -/
def dpOver : DraftFields :=
  { draft := none, confidence := some (.num (7/5)), suggestedTags := none,
    requiresHumanReview := none, reasoning := none }

/-- Parsed draft object reporting the numeric confidence -0.2. -/
def dpUnder : DraftFields :=
  { draft := none, confidence := some (.num (-(1/5))), suggestedTags := none,
    requiresHumanReview := none, reasoning := none }

/-- Witness for `generateDraft_confidence_clamped`: clamping at the concrete
out-of-range confidences 1.4 and -0.2, NaN passthrough at the non-numeric
confidence, and the [0, 1] bound at the clamped value 1. -/
theorem generateDraft_confidence_clamped_witness :
    (draftCore "raw" (.parsed dpOver)).confidence = .val 1 ∧
    (draftCore "raw" (.parsed dpUnder)).confidence = .val 0 ∧
    (draftCore "raw" (.parsed dpNaN)).confidence = .nan ∧
    (0 ≤ (1 : ℚ) ∧ (1 : ℚ) ≤ 1) :=
  ⟨(generateDraft_confidence_clamped "raw" .noJson).2.2.2.1 dpOver rfl,
   (generateDraft_confidence_clamped "raw" .noJson).2.2.2.2.1 dpUnder rfl,
   (generateDraft_confidence_clamped "raw" .noJson).2.2.2.2.2 dpNaN rfl,
   (generateDraft_confidence_clamped "raw" (.parsed dpOver)).1 1
     ((generateDraft_confidence_clamped "raw" .noJson).2.2.2.1 dpOver rfl)⟩

/-- C6: for every parse outcome, `extractIntent` returns urgency and
sentiment inside their closed sets; a present but invalid urgency
(resp. sentiment) is individually replaced by `medium` (resp. `neutral`),
an absent `keyEntities` by `[]`; and with no parseable JSON object the
result is exactly the default intent analysis. -/
theorem extractIntent_normalized (parse : JsonOutcome IntentFields) :
    (intentCore parse).urgency ∈ URGENCY_LEVELS ∧
    (intentCore parse).sentiment ∈ SENTIMENTS ∧
    intentCore .noJson =
      { intent := "unknown", urgency := "medium", sentiment := "neutral", keyEntities := [] } ∧
    (∀ (p : IntentFields) (u : String), p.urgency = some u → u ∉ URGENCY_LEVELS →
      (intentCore (.parsed p)).urgency = "medium") ∧
    (∀ (p : IntentFields) (s : String), p.sentiment = some s → s ∉ SENTIMENTS →
      (intentCore (.parsed p)).sentiment = "neutral") ∧
    (∀ p : IntentFields, p.keyEntities = none → (intentCore (.parsed p)).keyEntities = []) := by
  refine ⟨?_, ?_, rfl, fun p u hu hmem => ?_, fun p s hs hmem => ?_, fun p hk => ?_⟩
  · cases parse with
    | noJson => decide
    | parsed p =>
      show (match p.urgency with
        | some u => if u ∈ URGENCY_LEVELS then u else "medium"
        | none => "medium") ∈ URGENCY_LEVELS
      cases p.urgency with
      | none => decide
      | some u =>
        by_cases hmem : u ∈ URGENCY_LEVELS
        · simp [hmem]
        · simp [hmem]; decide
  · cases parse with
    | noJson => decide
    | parsed p =>
      show (match p.sentiment with
        | some s => if s ∈ SENTIMENTS then s else "neutral"
        | none => "neutral") ∈ SENTIMENTS
      cases p.sentiment with
      | none => decide
      | some s =>
        by_cases hmem : s ∈ SENTIMENTS
        · simp [hmem]
        · simp [hmem]; decide
  · simp [intentCore, hu, hmem]
  · simp [intentCore, hs, hmem]
  · simp [intentCore, hk]

/-- A parsed intent object with invalid urgency and sentiment and an absent
entity list, for the `extractIntent` witness. -/
def exIntentFields : IntentFields :=
  { intent := some "reset password", urgency := some "asap",
    sentiment := some "angry", keyEntities := none }

/-- Witness for `extractIntent_normalized` at a parsed object with invalid
urgency and sentiment and absent entity list. -/
theorem extractIntent_normalized_witness :
    (intentCore (.parsed exIntentFields)).urgency = "medium" ∧
    (intentCore (.parsed exIntentFields)).sentiment = "neutral" ∧
    (intentCore (.parsed exIntentFields)).keyEntities = [] :=
  ⟨(extractIntent_normalized .noJson).2.2.2.1 _ "asap" rfl (by decide),
   (extractIntent_normalized .noJson).2.2.2.2.1 _ "angry" rfl (by decide),
   (extractIntent_normalized .noJson).2.2.2.2.2 _ rfl⟩

/-! ## Orchestrator methods under an environment

`complete` (orchestrator.ts lines 343–375) forwards the provider's text and
wraps a thrown provider error as `Errors.llmError`, whose `AppError` message
is `LLM processing failed: <message>`.  The environment supplies the
provider-call outcome for each method; the method's defensive
response-processing is the corresponding `*Core` function. -/

/-- Provider outcomes for the three orchestrator calls `process` makes.  For
`extractIntent` and `generateDraft` the successful value carries the modelled
JSON-extraction outcome (and, for the draft, the raw response text the
fallback path returns). -/
structure LLMEnv where
  categorizeResp : Except String String
  intentResp : Except String (JsonOutcome IntentFields)
  draftResp : Except String (String × JsonOutcome DraftFields)

/-- Error wrapping of `complete`: a provider failure is rethrown as
`LLM processing failed: <message>` (orchestrator.ts lines 370–374,
errorHandler.ts `Errors.llmError`). -/
def completeWith {α : Type} : Except String α → Except String α
  | .ok a => .ok a
  | .error e => .error ("LLM processing failed: " ++ e)

namespace LLMOrchestrator

/-- `categorize` as seen by the processor: provider outcome through
`complete`, then the closed-set normalization. -/
def categorize (env : LLMEnv) : Except String String :=
  (completeWith env.categorizeResp).map categorizeCore

/-- `extractIntent` as seen by the processor. -/
def extractIntent (env : LLMEnv) : Except String IntentAnalysis :=
  (completeWith env.intentResp).map intentCore

/-- `generateDraft` as seen by the processor. -/
def generateDraft (env : LLMEnv) : Except String DraftResponse :=
  (completeWith env.draftResp).map (fun rp => draftCore rp.1 rp.2)

end LLMOrchestrator

/-! ## Ticket processor (src/processor.ts) -/

/-- `requester` of `TicketInput` (processor.ts line 17). -/
structure Requester where
  name : String
  email : String
deriving Repr, DecidableEq

/-- `TicketInput` (processor.ts lines 13–19). -/
structure TicketInput where
  id : Nat
  subject : String
  description : String
  requester : Option Requester
  tags : Option (List String)
deriving Repr, DecidableEq

/-- `ProcessorConfig` (processor.ts lines 21–26): all fields optional. -/
structure ProcessorConfig where
  addDraftToTicket : Option Bool
  addTagsToTicket : Option Bool
  minConfidenceForDraft : Option ℚ
  categoryFieldId : Option Nat
deriving Repr, DecidableEq

/-- The configuration actually stored by the constructor. -/
structure ResolvedConfig where
  addDraftToTicket : Bool
  addTagsToTicket : Bool
  minConfidenceForDraft : ℚ
  categoryFieldId : Option Nat
deriving Repr, DecidableEq

namespace TicketProcessor

/-- Constructor defaulting (processor.ts lines 50–55): spread the caller's
config over `{addDraftToTicket: true, addTagsToTicket: true,
minConfidenceForDraft: 0.6}`. -/
def resolveConfig (c : ProcessorConfig) : ResolvedConfig :=
  { addDraftToTicket := c.addDraftToTicket.getD true
    addTagsToTicket := c.addTagsToTicket.getD true
    minConfidenceForDraft := c.minConfidenceForDraft.getD (6/10)
    categoryFieldId := c.categoryFieldId }

end TicketProcessor

/-- The empty config `{}` used by `new TicketProcessor(zendesk, llm, rag)`. -/
def emptyProcessorConfig : ProcessorConfig :=
  { addDraftToTicket := none, addTagsToTicket := none,
    minConfidenceForDraft := none, categoryFieldId := none }

/-- `entity.toLowerCase().replace(/[^a-z0-9]/g, '_').substring(0, 20)`
(processor.ts line 195): lower-case, replace each non-alphanumeric character
by an underscore, truncate to 20 characters. -/
def sanitizeEntity (entity : String) : String :=
  String.mk (((lowerStr entity).data.map
    (fun c => if ('a' ≤ c ∧ c ≤ 'z') ∨ ('0' ≤ c ∧ c ≤ '9') then c else '_')).take 20)

namespace TicketProcessor

/-- `generateTags` (processor.ts lines 185–202): the four fixed tags, then a
push per non-empty sanitized entity among the first three `keyEntities`. -/
def generateTags (category : String) (intent : IntentAnalysis) : List String :=
  let tags : List String :=
    ["ai_category:" ++ category, "ai_urgency:" ++ intent.urgency,
     "ai_sentiment:" ++ intent.sentiment, "ai_processed"]
  (intent.keyEntities.take 3).foldl
    (fun acc entity =>
      let sanitized := sanitizeEntity entity
      if sanitized ≠ "" then acc ++ ["ai_entity:" ++ sanitized] else acc)
    tags

end TicketProcessor

/-- Outcomes of the four ticketing-system writes `process` can issue.  The
error string is the thrown error's message as observed by the processor. -/
structure ZendeskEnv where
  addTags : Except String Unit
  setCustomField : Except String Unit
  addDraftResponse : Except String Unit
  setPriority : Except String Unit

/-- Full collaborator environment of one `process` call. -/
structure Env where
  llm : LLMEnv
  rag : RagEnv
  zendesk : ZendeskEnv

/-- A ticketing-system write dispatched by `process` (call made, whatever its
outcome).  `addDraftResponse` carries the note metadata of processor.ts
lines 130–134. -/
inductive Effect where
  | addTags (ticketId : Nat) (tags : List String)
  | setCustomField (ticketId : Nat) (fieldId : Nat) (value : String)
  | addDraftResponse (ticketId : Nat) (draft : String) (category : String)
      (confidence : JSNumber) (sources : List String)
  | setPriority (ticketId : Nat) (priority : String)
deriving Repr, DecidableEq

/-- `k.title || k.id` (processor.ts line 133): an absent or empty title falls
back to the id. -/
def titleOrId (k : KnowledgeResult) : String :=
  match k.title with
  | some t => if t = "" then k.id else t
  | none => k.id

/-- The draft-commit threshold `this.config.minConfidenceForDraft || 0.6`
(processor.ts line 128): JS `||` treats a configured `0` as falsy, so it
falls back to `0.6`. -/
def minConfidenceOrDefault (q : ℚ) : ℚ := if q = 0 then 6/10 else q

/-- Priority escalation (processor.ts lines 139–144): dispatched only for
`critical` (→ `urgent`) and `high` (→ `high`) urgency. -/
def priorityEffects (ticketId : Nat) (intent : IntentAnalysis) : List Effect :=
  if intent.urgency = "critical" then [Effect.setPriority ticketId "urgent"]
  else if intent.urgency = "high" then [Effect.setPriority ticketId "high"]
  else []

/-- The fire-and-forget writes of steps 4–5 (processor.ts lines 97–110):
the tag write when `addTagsToTicket` is set, and the custom-field write when
a (truthy, hence nonzero) `categoryFieldId` is configured. -/
def dispatchedWrites (cfg : ResolvedConfig) (ticketId : Nat) (category : String)
    (intent : IntentAnalysis) : List Effect :=
  (if cfg.addTagsToTicket then
    [Effect.addTags ticketId (TicketProcessor.generateTags category intent)]
   else []) ++
  (match cfg.categoryFieldId with
   | some fid => if fid ≠ 0 then [Effect.setCustomField ticketId fid category] else []
   | none => [])

namespace TicketProcessor

/-- `process` (processor.ts lines 61–163).  The `try` block runs the stages
sequentially; a throw from `categorize`, `extractIntent`, `generateDraft` or
the awaited `addDraftResponse` is caught, its message stored in `error`, and
the partially populated result returned.  `addTags`, `setCustomField` and
`setPriority` are dispatched without being awaited and their outcomes are
never read (`.catch` logging only), so the result does not depend on them;
the returned effect list records every dispatched write in program order. -/
def process (cfg : ResolvedConfig) (ticket : TicketInput) (env : Env) :
    ProcessingResult × List Effect :=
  match LLMOrchestrator.categorize env.llm with
  | .error e =>
    ({ ticketId := ticket.id, category := "general_inquiry", intent := defaultIntent,
       relevantKnowledge := [], draftResponse := none, error := some e }, [])
  | .ok category =>
    match LLMOrchestrator.extractIntent env.llm with
    | .error e =>
      ({ ticketId := ticket.id, category := category, intent := defaultIntent,
         relevantKnowledge := [], draftResponse := none, error := some e }, [])
    | .ok intent =>
      let relevantKnowledge :=
        RAGService.hybridSearch env.rag
          (ticket.subject ++ "\n" ++ ticket.description) (some intent.keyEntities)
      let dispatched := dispatchedWrites cfg ticket.id category intent
      match LLMOrchestrator.generateDraft env.llm with
      | .error e =>
        ({ ticketId := ticket.id, category := category, intent := intent,
           relevantKnowledge := relevantKnowledge, draftResponse := none,
           error := some e }, dispatched)
      | .ok draftResponse =>
        if cfg.addDraftToTicket ∧
            jsGe draftResponse.confidence (minConfidenceOrDefault cfg.minConfidenceForDraft) then
          let noteEffect :=
            Effect.addDraftResponse ticket.id draftResponse.draft category
              draftResponse.confidence ((relevantKnowledge.take 3).map titleOrId)
          match env.zendesk.addDraftResponse with
          | .error e =>
            ({ ticketId := ticket.id, category := category, intent := intent,
               relevantKnowledge := relevantKnowledge,
               draftResponse := some draftResponse, error := some e },
             dispatched ++ [noteEffect])
          | .ok _ =>
            ({ ticketId := ticket.id, category := category, intent := intent,
               relevantKnowledge := relevantKnowledge,
               draftResponse := some draftResponse, error := none },
             dispatched ++ [noteEffect] ++ priorityEffects ticket.id intent)
        else
          ({ ticketId := ticket.id, category := category, intent := intent,
             relevantKnowledge := relevantKnowledge,
             draftResponse := some draftResponse, error := none },
           dispatched ++ priorityEffects ticket.id intent)

end TicketProcessor

/-- Is an effect the draft-note write? -/
def isNoteWrite : Effect → Bool
  | .addDraftResponse .. => true
  | _ => false

/-- Is an effect the priority write? -/
def isPriorityWrite : Effect → Bool
  | .setPriority .. => true
  | _ => false

/-- Number of draft-note writes among the dispatched effects. -/
def noteWrites (effects : List Effect) : Nat := (effects.filter isNoteWrite).length

/-! ## Shared lemmas about the defensive normalizations -/

theorem categorizeCore_mem (r : String) : categorizeCore r ∈ TICKET_CATEGORIES := by
  simp only [categorizeCore]
  split
  · assumption
  · decide

theorem intentCore_urgency_mem (parse : JsonOutcome IntentFields) :
    (intentCore parse).urgency ∈ URGENCY_LEVELS := by
  cases parse with
  | noJson => decide
  | parsed p =>
    show (match p.urgency with
      | some u => if u ∈ URGENCY_LEVELS then u else "medium"
      | none => "medium") ∈ URGENCY_LEVELS
    cases p.urgency with
    | none => decide
    | some u =>
      by_cases hmem : u ∈ URGENCY_LEVELS
      · simp [hmem]
      · simp [hmem]; decide

theorem intentCore_sentiment_mem (parse : JsonOutcome IntentFields) :
    (intentCore parse).sentiment ∈ SENTIMENTS := by
  cases parse with
  | noJson => decide
  | parsed p =>
    show (match p.sentiment with
      | some s => if s ∈ SENTIMENTS then s else "neutral"
      | none => "neutral") ∈ SENTIMENTS
    cases p.sentiment with
    | none => decide
    | some s =>
      by_cases hmem : s ∈ SENTIMENTS
      · simp [hmem]
      · simp [hmem]; decide

/-! ## Characterizations of `process` by collaborator outcome

One equation per control path of the `try` block, each conditioned on the
environment outcomes that select it. -/

theorem process_categorize_error (cfg : ResolvedConfig) (t : TicketInput) (env : Env)
    (e : String) (hc : env.llm.categorizeResp = .error e) :
    TicketProcessor.process cfg t env =
      ({ ticketId := t.id, category := "general_inquiry", intent := defaultIntent,
         relevantKnowledge := [], draftResponse := none,
         error := some ("LLM processing failed: " ++ e) }, []) := by
  simp [TicketProcessor.process, LLMOrchestrator.categorize, completeWith, Except.map, hc]

theorem process_intent_error (cfg : ResolvedConfig) (t : TicketInput) (env : Env)
    (cat e : String) (hc : env.llm.categorizeResp = .ok cat)
    (hi : env.llm.intentResp = .error e) :
    TicketProcessor.process cfg t env =
      ({ ticketId := t.id, category := categorizeCore cat, intent := defaultIntent,
         relevantKnowledge := [], draftResponse := none,
         error := some ("LLM processing failed: " ++ e) }, []) := by
  simp [TicketProcessor.process, LLMOrchestrator.categorize, LLMOrchestrator.extractIntent,
    completeWith, Except.map, hc, hi]

theorem process_draft_error (cfg : ResolvedConfig) (t : TicketInput) (env : Env)
    (cat : String) (ip : JsonOutcome IntentFields) (e : String)
    (hc : env.llm.categorizeResp = .ok cat) (hi : env.llm.intentResp = .ok ip)
    (hd : env.llm.draftResp = .error e) :
    TicketProcessor.process cfg t env =
      ({ ticketId := t.id, category := categorizeCore cat, intent := intentCore ip,
         relevantKnowledge := RAGService.hybridSearch env.rag
           (t.subject ++ "\n" ++ t.description) (some (intentCore ip).keyEntities),
         draftResponse := none, error := some ("LLM processing failed: " ++ e) },
       dispatchedWrites cfg t.id (categorizeCore cat) (intentCore ip)) := by
  simp [TicketProcessor.process, LLMOrchestrator.categorize, LLMOrchestrator.extractIntent,
    LLMOrchestrator.generateDraft, completeWith, Except.map, hc, hi, hd]

theorem process_gate_closed (cfg : ResolvedConfig) (t : TicketInput) (env : Env)
    (cat : String) (ip : JsonOutcome IntentFields) (raw : String)
    (dp : JsonOutcome DraftFields)
    (hc : env.llm.categorizeResp = .ok cat) (hi : env.llm.intentResp = .ok ip)
    (hd : env.llm.draftResp = .ok (raw, dp))
    (hg : ¬(cfg.addDraftToTicket ∧
      jsGe (draftCore raw dp).confidence (minConfidenceOrDefault cfg.minConfidenceForDraft))) :
    TicketProcessor.process cfg t env =
      ({ ticketId := t.id, category := categorizeCore cat, intent := intentCore ip,
         relevantKnowledge := RAGService.hybridSearch env.rag
           (t.subject ++ "\n" ++ t.description) (some (intentCore ip).keyEntities),
         draftResponse := some (draftCore raw dp), error := none },
       dispatchedWrites cfg t.id (categorizeCore cat) (intentCore ip) ++
         priorityEffects t.id (intentCore ip)) := by
  simp [TicketProcessor.process, LLMOrchestrator.categorize, LLMOrchestrator.extractIntent,
    LLMOrchestrator.generateDraft, completeWith, Except.map, hc, hi, hd, hg]

theorem process_gate_open_write_ok (cfg : ResolvedConfig) (t : TicketInput) (env : Env)
    (cat : String) (ip : JsonOutcome IntentFields) (raw : String)
    (dp : JsonOutcome DraftFields)
    (hc : env.llm.categorizeResp = .ok cat) (hi : env.llm.intentResp = .ok ip)
    (hd : env.llm.draftResp = .ok (raw, dp))
    (hg : cfg.addDraftToTicket ∧
      jsGe (draftCore raw dp).confidence (minConfidenceOrDefault cfg.minConfidenceForDraft))
    (hz : env.zendesk.addDraftResponse = .ok ()) :
    TicketProcessor.process cfg t env =
      ({ ticketId := t.id, category := categorizeCore cat, intent := intentCore ip,
         relevantKnowledge := RAGService.hybridSearch env.rag
           (t.subject ++ "\n" ++ t.description) (some (intentCore ip).keyEntities),
         draftResponse := some (draftCore raw dp), error := none },
       dispatchedWrites cfg t.id (categorizeCore cat) (intentCore ip) ++
         [Effect.addDraftResponse t.id (draftCore raw dp).draft (categorizeCore cat)
           (draftCore raw dp).confidence
           (((RAGService.hybridSearch env.rag (t.subject ++ "\n" ++ t.description)
               (some (intentCore ip).keyEntities)).take 3).map titleOrId)] ++
         priorityEffects t.id (intentCore ip)) := by
  simp [TicketProcessor.process, LLMOrchestrator.categorize, LLMOrchestrator.extractIntent,
    LLMOrchestrator.generateDraft, completeWith, Except.map, hc, hi, hd, hg, hz]

theorem process_gate_open_write_error (cfg : ResolvedConfig) (t : TicketInput) (env : Env)
    (cat : String) (ip : JsonOutcome IntentFields) (raw : String)
    (dp : JsonOutcome DraftFields) (e : String)
    (hc : env.llm.categorizeResp = .ok cat) (hi : env.llm.intentResp = .ok ip)
    (hd : env.llm.draftResp = .ok (raw, dp))
    (hg : cfg.addDraftToTicket ∧
      jsGe (draftCore raw dp).confidence (minConfidenceOrDefault cfg.minConfidenceForDraft))
    (hz : env.zendesk.addDraftResponse = .error e) :
    TicketProcessor.process cfg t env =
      ({ ticketId := t.id, category := categorizeCore cat, intent := intentCore ip,
         relevantKnowledge := RAGService.hybridSearch env.rag
           (t.subject ++ "\n" ++ t.description) (some (intentCore ip).keyEntities),
         draftResponse := some (draftCore raw dp), error := some e },
       dispatchedWrites cfg t.id (categorizeCore cat) (intentCore ip) ++
         [Effect.addDraftResponse t.id (draftCore raw dp).draft (categorizeCore cat)
           (draftCore raw dp).confidence
           (((RAGService.hybridSearch env.rag (t.subject ++ "\n" ++ t.description)
               (some (intentCore ip).keyEntities)).take 3).map titleOrId)]) := by
  simp [TicketProcessor.process, LLMOrchestrator.categorize, LLMOrchestrator.extractIntent,
    LLMOrchestrator.generateDraft, completeWith, Except.map, hc, hi, hd, hg, hz]

/-! ## Effect-counting lemmas -/

theorem noteWrites_append (a b : List Effect) :
    noteWrites (a ++ b) = noteWrites a + noteWrites b := by
  simp [noteWrites, List.filter_append]

theorem noteWrites_dispatchedWrites (cfg : ResolvedConfig) (ticketId : Nat)
    (category : String) (intent : IntentAnalysis) :
    noteWrites (dispatchedWrites cfg ticketId category intent) = 0 := by
  rw [dispatchedWrites, noteWrites_append]
  have h1 : noteWrites
      (if cfg.addTagsToTicket then
        [Effect.addTags ticketId (TicketProcessor.generateTags category intent)]
       else []) = 0 := by
    split <;> rfl
  have h2 : noteWrites
      (match cfg.categoryFieldId with
       | some fid => if fid ≠ 0 then [Effect.setCustomField ticketId fid category] else []
       | none => []) = 0 := by
    rcases cfg.categoryFieldId with _ | fid
    · rfl
    · show noteWrites (if fid ≠ 0 then _ else _) = 0
      split <;> rfl
  omega

theorem noteWrites_priorityEffects (ticketId : Nat) (intent : IntentAnalysis) :
    noteWrites (priorityEffects ticketId intent) = 0 := by
  rw [priorityEffects]
  split
  · rfl
  · split <;> rfl

theorem isPriorityWrite_dispatchedWrites (cfg : ResolvedConfig) (ticketId : Nat)
    (category : String) (intent : IntentAnalysis) :
    (dispatchedWrites cfg ticketId category intent).filter isPriorityWrite = [] := by
  rw [dispatchedWrites, List.filter_append]
  have h1 : (if cfg.addTagsToTicket then
        [Effect.addTags ticketId (TicketProcessor.generateTags category intent)]
       else [] : List Effect).filter isPriorityWrite = [] := by
    split <;> rfl
  have h2 : (match cfg.categoryFieldId with
       | some fid => if fid ≠ 0 then [Effect.setCustomField ticketId fid category] else []
       | none => ([] : List Effect)).filter isPriorityWrite = [] := by
    rcases cfg.categoryFieldId with _ | fid
    · rfl
    · show (if fid ≠ 0 then _ else _ : List Effect).filter isPriorityWrite = []
      split <;> rfl
  rw [h1, h2]
  rfl

/-! ## Claims about `process` -/

/-- C2: for every ticket, configuration and collaborator behaviour (each of
the four stages may throw), `process` returns a `ProcessingResult` — the
translation is a total function, so the call resolves rather than throwing —
whose category, urgency and sentiment lie in their fixed closed sets, and a
stage failure is surfaced through the result's `error` field (shown here for
the first stage: a provider failure in `categorize` puts the wrapped message
into `error`). -/
theorem process_resolves_with_closed_sets (cfg : ResolvedConfig) (t : TicketInput) (env : Env) :
    (TicketProcessor.process cfg t env).1.category ∈ TICKET_CATEGORIES ∧
    (TicketProcessor.process cfg t env).1.intent.urgency ∈ URGENCY_LEVELS ∧
    (TicketProcessor.process cfg t env).1.intent.sentiment ∈ SENTIMENTS ∧
    (∀ e, env.llm.categorizeResp = .error e →
      (TicketProcessor.process cfg t env).1.error = some ("LLM processing failed: " ++ e)) := by
  have key : (TicketProcessor.process cfg t env).1.category ∈ TICKET_CATEGORIES ∧
      (TicketProcessor.process cfg t env).1.intent.urgency ∈ URGENCY_LEVELS ∧
      (TicketProcessor.process cfg t env).1.intent.sentiment ∈ SENTIMENTS := by
    rcases hc : env.llm.categorizeResp with e | cat
    · rw [process_categorize_error cfg t env e hc]
      exact ⟨show "general_inquiry" ∈ TICKET_CATEGORIES by decide,
        show "medium" ∈ URGENCY_LEVELS by decide,
        show "neutral" ∈ SENTIMENTS by decide⟩
    · rcases hi : env.llm.intentResp with e | ip
      · rw [process_intent_error cfg t env cat e hc hi]
        exact ⟨categorizeCore_mem cat,
          show "medium" ∈ URGENCY_LEVELS by decide,
          show "neutral" ∈ SENTIMENTS by decide⟩
      · rcases hd : env.llm.draftResp with e | rp
        · rw [process_draft_error cfg t env cat ip e hc hi hd]
          exact ⟨categorizeCore_mem cat, intentCore_urgency_mem ip, intentCore_sentiment_mem ip⟩
        · obtain ⟨raw, dp⟩ := rp
          by_cases hg : cfg.addDraftToTicket ∧
              jsGe (draftCore raw dp).confidence (minConfidenceOrDefault cfg.minConfidenceForDraft)
          · rcases hz : env.zendesk.addDraftResponse with e | u
            · rw [process_gate_open_write_error cfg t env cat ip raw dp e hc hi hd hg hz]
              exact ⟨categorizeCore_mem cat, intentCore_urgency_mem ip,
                intentCore_sentiment_mem ip⟩
            · cases u
              rw [process_gate_open_write_ok cfg t env cat ip raw dp hc hi hd hg hz]
              exact ⟨categorizeCore_mem cat, intentCore_urgency_mem ip,
                intentCore_sentiment_mem ip⟩
          · rw [process_gate_closed cfg t env cat ip raw dp hc hi hd hg]
            exact ⟨categorizeCore_mem cat, intentCore_urgency_mem ip,
              intentCore_sentiment_mem ip⟩
  exact ⟨key.1, key.2.1, key.2.2,
    fun e he => by rw [process_categorize_error cfg t env e he]⟩

/-- Shared example inputs for the processor claims. -/
def tEx : TicketInput :=
  { id := 1, subject := "subj", description := "desc", requester := none, tags := none }

/-- RAG environment whose index is empty and never fails. -/
def ragOkEmpty : RagEnv := { embed := fun _ => .ok (), queryIndex := fun _ => .ok [] }

/-- Ticketing system on which every write succeeds. -/
def zendeskAllOk : ZendeskEnv :=
  { addTags := .ok (), setCustomField := .ok (), addDraftResponse := .ok (),
    setPriority := .ok () }

/-- The default configuration stored by `new TicketProcessor(z, l, r)`. -/
def cfgDefault : ResolvedConfig := TicketProcessor.resolveConfig emptyProcessorConfig

/-- Environment in which the categorize provider call throws `boom`. -/
def envCatFail : Env :=
  { llm := { categorizeResp := .error "boom", intentResp := .ok .noJson,
             draftResp := .ok ("", .noJson) },
    rag := ragOkEmpty, zendesk := zendeskAllOk }

/-- Witness for `process_resolves_with_closed_sets` under a throwing
classifier. -/
theorem process_resolves_with_closed_sets_witness :
    (TicketProcessor.process cfgDefault tEx envCatFail).1.category ∈ TICKET_CATEGORIES ∧
    (TicketProcessor.process cfgDefault tEx envCatFail).1.error =
      some "LLM processing failed: boom" :=
  ⟨(process_resolves_with_closed_sets cfgDefault tEx envCatFail).1,
   (process_resolves_with_closed_sets cfgDefault tEx envCatFail).2.2.2 "boom" rfl⟩

/-- The entity-tag loop (`forEach` + `push`) appends exactly the sanitized
tags of the non-empty-after-sanitizing entities. -/
theorem foldl_entity_tags (l : List String) (init : List String) :
    l.foldl (fun acc entity =>
      let sanitized := sanitizeEntity entity
      if sanitized ≠ "" then acc ++ ["ai_entity:" ++ sanitized] else acc) init =
    init ++ l.filterMap (fun entity =>
      if sanitizeEntity entity = "" then none
      else some ("ai_entity:" ++ sanitizeEntity entity)) := by
  induction l generalizing init with
  | nil => simp
  | cons x xs ih =>
    rw [List.foldl_cons, ih]
    by_cases hx : sanitizeEntity x = ""
    · simp [hx, List.filterMap_cons]
    · simp [hx, List.filterMap_cons]

/-- C8: `generateTags` returns exactly
`ai_category:<category>`, `ai_urgency:<urgency>`, `ai_sentiment:<sentiment>`,
`ai_processed`, followed by at most 3 entity tags built from the first 3
`keyEntities` (lower-cased, non-alphanumeric characters replaced by
underscores, truncated to 20 characters, dropped when empty after
sanitizing); the worked example over `account_management`/`high`/
`frustrated`/`["login", "error"]` is computed explicitly. -/
theorem generateTags_shape (category : String) (intent : IntentAnalysis) :
    TicketProcessor.generateTags category intent =
      ["ai_category:" ++ category, "ai_urgency:" ++ intent.urgency,
       "ai_sentiment:" ++ intent.sentiment, "ai_processed"] ++
        (intent.keyEntities.take 3).filterMap (fun entity =>
          if sanitizeEntity entity = "" then none
          else some ("ai_entity:" ++ sanitizeEntity entity)) ∧
    ((intent.keyEntities.take 3).filterMap (fun entity =>
          if sanitizeEntity entity = "" then none
          else some ("ai_entity:" ++ sanitizeEntity entity))).length ≤ 3 ∧
    TicketProcessor.generateTags "account_management"
      ⟨"login help", "high", "frustrated", ["login", "error"]⟩ =
      ["ai_category:account_management", "ai_urgency:high", "ai_sentiment:frustrated",
       "ai_processed", "ai_entity:login", "ai_entity:error"] := by
  refine ⟨?_, ?_, by decide⟩
  · exact foldl_entity_tags (intent.keyEntities.take 3) _
  · exact le_trans (List.length_filterMap_le _ _) (List.length_take_le _ _)

/-! ## The draft-commit gate -/

/-- Configuration with the draft-commit threshold explicitly set to 0. -/
def cfgZeroThreshold : ResolvedConfig :=
  TicketProcessor.resolveConfig
    { addDraftToTicket := some true, addTagsToTicket := some false,
      minConfidenceForDraft := some 0, categoryFieldId := none }

/-- Parsed draft object reporting confidence 0.5. -/
def dpHalf : DraftFields :=
  { draft := some "Hello Jane", confidence := some (.num (1/2)), suggestedTags := none,
    requiresHumanReview := none, reasoning := none }

/-- Environment where all stages succeed and the draft reports confidence 0.5. -/
def envHalf : Env :=
  { llm := { categorizeResp := .ok "billing", intentResp := .ok .noJson,
             draftResp := .ok ("raw", .parsed dpHalf) },
    rag := ragOkEmpty, zendesk := zendeskAllOk }

/-- C3 counterexample: with the commit-draft option enabled and a configured
threshold of 0, a draft of confidence 0.5 satisfies
`confidence ≥ minConfidenceForDraft`, yet `process` dispatches no note
write — the gate is `confidence ≥ (minConfidenceForDraft || 0.6)`
(processor.ts line 128) and JS `||` treats the configured 0 as falsy, so the
claimed equivalence fails at threshold 0. -/
theorem draft_gate_threshold_zero_counterexample :
    cfgZeroThreshold.addDraftToTicket = true ∧
    cfgZeroThreshold.minConfidenceForDraft = 0 ∧
    (∃ d, (TicketProcessor.process cfgZeroThreshold tEx envHalf).1.draftResponse = some d ∧
      jsGe d.confidence cfgZeroThreshold.minConfidenceForDraft) ∧
    noteWrites (TicketProcessor.process cfgZeroThreshold tEx envHalf).2 = 0 := by
  have hconf : (draftCore "raw" (.parsed dpHalf)).confidence = .val (1/2) := by
    norm_num [draftCore, dpHalf, confOrDefault, jsMax0, jsMin1]
  have hg : ¬(cfgZeroThreshold.addDraftToTicket ∧
      jsGe (draftCore "raw" (.parsed dpHalf)).confidence
        (minConfidenceOrDefault cfgZeroThreshold.minConfidenceForDraft)) := by
    rw [hconf]
    norm_num [jsGe, cfgZeroThreshold, TicketProcessor.resolveConfig, minConfidenceOrDefault]
  have hp := process_gate_closed cfgZeroThreshold tEx envHalf "billing" .noJson "raw"
    (.parsed dpHalf) rfl rfl rfl hg
  rw [hp]
  refine ⟨rfl, rfl, ⟨draftCore "raw" (.parsed dpHalf), rfl, ?_⟩, ?_⟩
  · rw [hconf]
    norm_num [jsGe, cfgZeroThreshold, TicketProcessor.resolveConfig]
  · rw [noteWrites_append, noteWrites_dispatchedWrites, noteWrites_priorityEffects]

/-- Parsed draft object reporting confidence 0.4. -/
def dpLow : DraftFields :=
  { draft := some "Low confidence draft", confidence := some (.num (2/5)), suggestedTags := none,
    requiresHumanReview := none, reasoning := none }

/-- Parsed draft object reporting confidence 0.85. -/
def dpHigh : DraftFields :=
  { draft := some "Hi John, happy to help", confidence := some (.num (17/20)),
    suggestedTags := none, requiresHumanReview := none, reasoning := none }

/-- Environment where all stages succeed and the draft reports confidence 0.4. -/
def envLow : Env :=
  { llm := { categorizeResp := .ok "billing", intentResp := .ok .noJson,
             draftResp := .ok ("raw", .parsed dpLow) },
    rag := ragOkEmpty, zendesk := zendeskAllOk }

/-- Environment where all stages succeed and the draft reports confidence 0.85. -/
def envHigh : Env :=
  { llm := { categorizeResp := .ok "billing", intentResp := .ok .noJson,
             draftResp := .ok ("raw", .parsed dpHigh) },
    rag := ragOkEmpty, zendesk := zendeskAllOk }

/-- C3 (amended): when the four stages succeed, the draft note is written
(exactly once) iff the commit-draft option is enabled and
`draftResponse.confidence` is at least the effective threshold, which is the
configured `minConfidenceForDraft` when that value is nonzero and `0.6` when
it is 0 (JS falsy fallback) or unset; the generated draft is always present
in the returned result; with the default threshold 0.6, confidence 0.4
triggers no note write and confidence 0.85 exactly one. -/
theorem draft_gate_effective_threshold (cfg : ResolvedConfig) (t : TicketInput) (env : Env)
    (cat : String) (ip : JsonOutcome IntentFields) (raw : String)
    (dp : JsonOutcome DraftFields)
    (hc : env.llm.categorizeResp = .ok cat) (hi : env.llm.intentResp = .ok ip)
    (hd : env.llm.draftResp = .ok (raw, dp)) :
    (noteWrites (TicketProcessor.process cfg t env).2 =
      if cfg.addDraftToTicket ∧
          jsGe (draftCore raw dp).confidence (minConfidenceOrDefault cfg.minConfidenceForDraft)
        then 1 else 0) ∧
    (TicketProcessor.process cfg t env).1.draftResponse = some (draftCore raw dp) ∧
    (∀ q : ℚ, q ≠ 0 → minConfidenceOrDefault q = q) ∧
    minConfidenceOrDefault 0 = 6/10 ∧
    noteWrites (TicketProcessor.process cfgDefault tEx envLow).2 = 0 ∧
    noteWrites (TicketProcessor.process cfgDefault tEx envHigh).2 = 1 := by
  have main : ∀ (cfg2 : ResolvedConfig) (t2 : TicketInput) (env2 : Env) (cat2 : String)
      (ip2 : JsonOutcome IntentFields) (raw2 : String) (dp2 : JsonOutcome DraftFields),
      env2.llm.categorizeResp = .ok cat2 → env2.llm.intentResp = .ok ip2 →
      env2.llm.draftResp = .ok (raw2, dp2) →
      (noteWrites (TicketProcessor.process cfg2 t2 env2).2 =
        if cfg2.addDraftToTicket ∧
            jsGe (draftCore raw2 dp2).confidence
              (minConfidenceOrDefault cfg2.minConfidenceForDraft)
          then 1 else 0) ∧
      (TicketProcessor.process cfg2 t2 env2).1.draftResponse =
        some (draftCore raw2 dp2) := by
    intro cfg2 t2 env2 cat2 ip2 raw2 dp2 hc2 hi2 hd2
    by_cases hg : cfg2.addDraftToTicket ∧
        jsGe (draftCore raw2 dp2).confidence (minConfidenceOrDefault cfg2.minConfidenceForDraft)
    · rcases hz : env2.zendesk.addDraftResponse with e | u
      · rw [process_gate_open_write_error cfg2 t2 env2 cat2 ip2 raw2 dp2 e hc2 hi2 hd2 hg hz]
        refine ⟨?_, rfl⟩
        rw [if_pos hg, noteWrites_append, noteWrites_dispatchedWrites]
        rfl
      · cases u
        rw [process_gate_open_write_ok cfg2 t2 env2 cat2 ip2 raw2 dp2 hc2 hi2 hd2 hg hz]
        refine ⟨?_, rfl⟩
        rw [if_pos hg, noteWrites_append, noteWrites_append, noteWrites_dispatchedWrites,
          noteWrites_priorityEffects]
        rfl
    · rw [process_gate_closed cfg2 t2 env2 cat2 ip2 raw2 dp2 hc2 hi2 hd2 hg]
      refine ⟨?_, rfl⟩
      rw [if_neg hg, noteWrites_append, noteWrites_dispatchedWrites,
        noteWrites_priorityEffects]
  obtain ⟨h1, h2⟩ := main cfg t env cat ip raw dp hc hi hd
  have hlow := (main cfgDefault tEx envLow "billing" .noJson "raw" (.parsed dpLow)
    rfl rfl rfl).1
  have hhigh := (main cfgDefault tEx envHigh "billing" .noJson "raw" (.parsed dpHigh)
    rfl rfl rfl).1
  refine ⟨h1, h2, fun q hq => if_neg hq, by norm_num [minConfidenceOrDefault], ?_, ?_⟩
  · rw [hlow, if_neg]
    rintro ⟨-, hle⟩
    rw [show (draftCore "raw" (.parsed dpLow)).confidence = .val (2/5) by
      norm_num [draftCore, dpLow, confOrDefault, jsMax0, jsMin1]] at hle
    norm_num [jsGe, cfgDefault, TicketProcessor.resolveConfig, emptyProcessorConfig,
      minConfidenceOrDefault] at hle
  · rw [hhigh, if_pos]
    refine ⟨rfl, ?_⟩
    rw [show (draftCore "raw" (.parsed dpHigh)).confidence = .val (17/20) by
      norm_num [draftCore, dpHigh, confOrDefault, jsMax0, jsMin1]]
    norm_num [jsGe, cfgDefault, TicketProcessor.resolveConfig, emptyProcessorConfig,
      minConfidenceOrDefault]

/-- Witness for `draft_gate_effective_threshold` at the confidence-0.85
environment. -/
theorem draft_gate_effective_threshold_witness :
    noteWrites (TicketProcessor.process cfgDefault tEx envHigh).2 = 1 ∧
    (TicketProcessor.process cfgDefault tEx envHigh).1.draftResponse =
      some (draftCore "raw" (.parsed dpHigh)) :=
  ⟨(draft_gate_effective_threshold cfgDefault tEx envHigh "billing" .noJson "raw"
      (.parsed dpHigh) rfl rfl rfl).2.2.2.2.2,
   (draft_gate_effective_threshold cfgDefault tEx envHigh "billing" .noJson "raw"
      (.parsed dpHigh) rfl rfl rfl).2.1⟩

/-- With no semantic results, hybrid search returns the empty list in every
keyword mode. -/
theorem hybridSearch_of_retrieve_empty (env : RagEnv) (q : String)
    (kws : Option (List String)) (h : RAGService.retrieve env q 10 (1/2) = []) :
    RAGService.hybridSearch env q kws = [] := by
  simp only [RAGService.hybridSearch, h]
  cases kws with
  | none => rfl
  | some l =>
    by_cases hl : l.isEmpty
    · simp [hl]
    · simp [hl, sortByScoreDesc]

/-- RAG environment whose embedding call always throws. -/
def ragEmbedFail : RagEnv :=
  { embed := fun _ => .error "down", queryIndex := fun _ => .ok [] }

/-- Environment: LLM stages succeed (draft unparseable, confidence 0.5), the
embedding call throws, every ticketing-system write succeeds. -/
def envEmbedFail : Env :=
  { llm := { categorizeResp := .ok "billing", intentResp := .ok .noJson,
             draftResp := .ok ("raw", .noJson) },
    rag := ragEmbedFail, zendesk := zendeskAllOk }

/-- C7: whenever the embedding call or the index query throws, `retrieve`
returns `[]` instead of propagating; consequently, inside `process` a
knowledge-retrieval failure leaves `relevantKnowledge` empty while the draft
is still generated and the result completes without an error caused by
retrieval. -/
theorem retrieve_degrades_to_empty (env : RagEnv) (q : String) (topK : Nat)
    (minScore : ℚ) (envP : Env) (cfg : ResolvedConfig) (t : TicketInput)
    (cat : String) (ip : JsonOutcome IntentFields) (raw : String)
    (dp : JsonOutcome DraftFields) (e : String)
    (hc : envP.llm.categorizeResp = .ok cat) (hi : envP.llm.intentResp = .ok ip)
    (hd : envP.llm.draftResp = .ok (raw, dp))
    (hz : envP.zendesk.addDraftResponse = .ok ())
    (hembed : envP.rag.embed (t.subject ++ "\n" ++ t.description) = .error e) :
    (∀ e2, env.embed q = .error e2 → RAGService.retrieve env q topK minScore = []) ∧
    (∀ e2, env.queryIndex topK = .error e2 → RAGService.retrieve env q topK minScore = []) ∧
    (TicketProcessor.process cfg t envP).1.relevantKnowledge = [] ∧
    (TicketProcessor.process cfg t envP).1.draftResponse = some (draftCore raw dp) ∧
    (TicketProcessor.process cfg t envP).1.error = none := by
  have hrk : RAGService.hybridSearch envP.rag (t.subject ++ "\n" ++ t.description)
      (some (intentCore ip).keyEntities) = [] := by
    refine hybridSearch_of_retrieve_empty _ _ _ ?_
    simp [RAGService.retrieve, hembed]
  have key : (TicketProcessor.process cfg t envP).1.relevantKnowledge = [] ∧
      (TicketProcessor.process cfg t envP).1.draftResponse = some (draftCore raw dp) ∧
      (TicketProcessor.process cfg t envP).1.error = none := by
    by_cases hg : cfg.addDraftToTicket ∧
        jsGe (draftCore raw dp).confidence (minConfidenceOrDefault cfg.minConfidenceForDraft)
    · rw [process_gate_open_write_ok cfg t envP cat ip raw dp hc hi hd hg hz]
      exact ⟨hrk, rfl, rfl⟩
    · rw [process_gate_closed cfg t envP cat ip raw dp hc hi hd hg]
      exact ⟨hrk, rfl, rfl⟩
  refine ⟨fun e2 he2 => by simp [RAGService.retrieve, he2], fun e2 he2 => ?_,
    key.1, key.2.1, key.2.2⟩
  rcases hemb : env.embed q with e3 | u
  · simp [RAGService.retrieve, hemb]
  · simp [RAGService.retrieve, hemb, he2]

/-- Witness for `retrieve_degrades_to_empty` at a concrete failing embedding. -/
theorem retrieve_degrades_to_empty_witness :
    RAGService.retrieve ragEmbedFail "q" 5 (7/10) = [] ∧
    (TicketProcessor.process cfgDefault tEx envEmbedFail).1.relevantKnowledge = [] ∧
    (TicketProcessor.process cfgDefault tEx envEmbedFail).1.draftResponse =
      some (draftCore "raw" .noJson) ∧
    (TicketProcessor.process cfgDefault tEx envEmbedFail).1.error = none :=
  ⟨(retrieve_degrades_to_empty ragEmbedFail "q" 5 (7/10) envEmbedFail cfgDefault tEx
      "billing" .noJson "raw" .noJson "down" rfl rfl rfl rfl rfl).1 "down" rfl,
   (retrieve_degrades_to_empty ragEmbedFail "q" 5 (7/10) envEmbedFail cfgDefault tEx
      "billing" .noJson "raw" .noJson "down" rfl rfl rfl rfl rfl).2.2.1,
   (retrieve_degrades_to_empty ragEmbedFail "q" 5 (7/10) envEmbedFail cfgDefault tEx
      "billing" .noJson "raw" .noJson "down" rfl rfl rfl rfl rfl).2.2.2.1,
   (retrieve_degrades_to_empty ragEmbedFail "q" 5 (7/10) envEmbedFail cfgDefault tEx
      "billing" .noJson "raw" .noJson "down" rfl rfl rfl rfl rfl).2.2.2.2⟩

/-- Parsed draft object that honestly reports confidence 0. -/
def dpZero : DraftFields :=
  { draft := some "Zero confidence draft", confidence := some (.num 0), suggestedTags := none,
    requiresHumanReview := none, reasoning := none }

/-- Environment where all stages succeed and the draft reports confidence 0. -/
def envZeroConf : Env :=
  { llm := { categorizeResp := .ok "billing", intentResp := .ok .noJson,
             draftResp := .ok ("raw", .parsed dpZero) },
    rag := ragOkEmpty, zendesk := zendeskAllOk }

/-- C9: a parsed draft object whose confidence field is absent (or null,
both modelled as `none`) or exactly 0 is falsy under `||`, so `generateDraft`
replaces it by the 0.7 default before clamping; 0.7 passes the default 0.6
draft-commit gate, so such a draft is committed under the default
configuration. -/
theorem generateDraft_falsy_confidence (response : String) (p : DraftFields)
    (h : p.confidence = none ∨ p.confidence = some (.num 0)) :
    (draftCore response (.parsed p)).confidence = .val (7/10) ∧
    jsGe (draftCore response (.parsed p)).confidence
      (minConfidenceOrDefault cfgDefault.minConfidenceForDraft) ∧
    noteWrites (TicketProcessor.process cfgDefault tEx envZeroConf).2 = 1 := by
  have hconf : (draftCore response (.parsed p)).confidence = .val (7/10) := by
    rcases h with h | h <;> norm_num [draftCore, h, confOrDefault, jsMax0, jsMin1]
  have hthr : minConfidenceOrDefault cfgDefault.minConfidenceForDraft = 6/10 := by
    norm_num [cfgDefault, TicketProcessor.resolveConfig, emptyProcessorConfig,
      minConfidenceOrDefault]
  refine ⟨hconf, ?_, ?_⟩
  · rw [hconf, hthr]
    norm_num [jsGe]
  · have hconf0 : (draftCore "raw" (.parsed dpZero)).confidence = .val (7/10) := by
      norm_num [draftCore, dpZero, confOrDefault, jsMax0, jsMin1]
    have hg : cfgDefault.addDraftToTicket ∧
        jsGe (draftCore "raw" (.parsed dpZero)).confidence
          (minConfidenceOrDefault cfgDefault.minConfidenceForDraft) := by
      rw [hconf0, hthr]
      exact ⟨rfl, by norm_num [jsGe]⟩
    rw [process_gate_open_write_ok cfgDefault tEx envZeroConf "billing" .noJson "raw"
      (.parsed dpZero) rfl rfl rfl hg rfl]
    rw [noteWrites_append, noteWrites_append, noteWrites_dispatchedWrites,
      noteWrites_priorityEffects]
    rfl

/-- Witness for `generateDraft_falsy_confidence` at an honest zero-confidence
draft. -/
theorem generateDraft_falsy_confidence_witness :
    (draftCore "raw" (.parsed dpZero)).confidence = .val (7/10) ∧
    noteWrites (TicketProcessor.process cfgDefault tEx envZeroConf).2 = 1 :=
  ⟨(generateDraft_falsy_confidence "raw" dpZero (Or.inr rfl)).1,
   (generateDraft_falsy_confidence "raw" dpZero (Or.inr rfl)).2.2⟩

/-- Intent parse with critical urgency (so that the priority step would run
if reached). -/
def ipCrit : JsonOutcome IntentFields :=
  .parsed { intent := some "system down", urgency := some "critical",
            sentiment := some "negative", keyEntities := none }

/-- Ticketing system on which the draft-note write throws and the other
writes succeed. -/
def zendeskNoteFail : ZendeskEnv :=
  { addTags := .ok (), setCustomField := .ok (), addDraftResponse := .error "zd down",
    setPriority := .ok () }

/-- Environment: LLM stages succeed with a high-confidence draft and critical
urgency, and the draft-note write throws. -/
def envNoteFail : Env :=
  { llm := { categorizeResp := .ok "billing", intentResp := .ok ipCrit,
             draftResp := .ok ("raw", .parsed dpHigh) },
    rag := ragOkEmpty, zendesk := zendeskNoteFail }

/-- C10: the draft-note commit is awaited on the critical path: when the
stages succeed, the gate passes and the note write throws, `process` records
that error message in the result, dispatches no priority write, and still
returns the computed draft, category, intent and knowledge; and the result
is entirely independent of the outcomes of the fire-and-forget tag,
custom-field and priority writes. -/
theorem draft_commit_awaited (cfg : ResolvedConfig) (t : TicketInput) (env : Env)
    (cat : String) (ip : JsonOutcome IntentFields) (raw : String)
    (dp : JsonOutcome DraftFields) (e : String)
    (hc : env.llm.categorizeResp = .ok cat) (hi : env.llm.intentResp = .ok ip)
    (hd : env.llm.draftResp = .ok (raw, dp))
    (hg : cfg.addDraftToTicket ∧
      jsGe (draftCore raw dp).confidence (minConfidenceOrDefault cfg.minConfidenceForDraft))
    (hz : env.zendesk.addDraftResponse = .error e) :
    (TicketProcessor.process cfg t env).1.error = some e ∧
    (TicketProcessor.process cfg t env).2.filter isPriorityWrite = [] ∧
    (TicketProcessor.process cfg t env).1.draftResponse = some (draftCore raw dp) ∧
    (TicketProcessor.process cfg t env).1.category = categorizeCore cat ∧
    (TicketProcessor.process cfg t env).1.intent = intentCore ip ∧
    (TicketProcessor.process cfg t env).1.relevantKnowledge =
      RAGService.hybridSearch env.rag (t.subject ++ "\n" ++ t.description)
        (some (intentCore ip).keyEntities) ∧
    (∀ env2 : Env, env2.llm = env.llm → env2.rag = env.rag →
      env2.zendesk.addDraftResponse = env.zendesk.addDraftResponse →
      TicketProcessor.process cfg t env2 = TicketProcessor.process cfg t env) := by
  have hp := process_gate_open_write_error cfg t env cat ip raw dp e hc hi hd hg hz
  refine ⟨?_, ?_, ?_, ?_, ?_, ?_, fun env2 hllm hrag hzd => ?_⟩
  · rw [hp]
  · rw [hp]
    show (dispatchedWrites cfg t.id (categorizeCore cat) (intentCore ip) ++
      [Effect.addDraftResponse t.id (draftCore raw dp).draft (categorizeCore cat)
        (draftCore raw dp).confidence _]).filter isPriorityWrite = []
    rw [List.filter_append, isPriorityWrite_dispatchedWrites]
    rfl
  · rw [hp]
  · rw [hp]
  · rw [hp]
  · rw [hp]
  · simp only [TicketProcessor.process, hllm, hrag, hzd]

/-- Witness for `draft_commit_awaited` at a failing note write with critical
urgency. -/
theorem draft_commit_awaited_witness :
    (TicketProcessor.process cfgDefault tEx envNoteFail).1.error = some "zd down" ∧
    (TicketProcessor.process cfgDefault tEx envNoteFail).2.filter isPriorityWrite = [] ∧
    (TicketProcessor.process cfgDefault tEx envNoteFail).1.draftResponse =
      some (draftCore "raw" (.parsed dpHigh)) := by
  have hg : cfgDefault.addDraftToTicket ∧
      jsGe (draftCore "raw" (.parsed dpHigh)).confidence
        (minConfidenceOrDefault cfgDefault.minConfidenceForDraft) := by
    refine ⟨rfl, ?_⟩
    rw [show (draftCore "raw" (.parsed dpHigh)).confidence = .val (17/20) by
      norm_num [draftCore, dpHigh, confOrDefault, jsMax0, jsMin1]]
    norm_num [jsGe, cfgDefault, TicketProcessor.resolveConfig, emptyProcessorConfig,
      minConfidenceOrDefault]
  have h := draft_commit_awaited cfgDefault tEx envNoteFail "billing" ipCrit "raw"
    (.parsed dpHigh) "zd down" rfl rfl rfl hg rfl
  exact ⟨h.1, h.2.1, h.2.2.1⟩

end ZendeskAI
